import Mathlib

/-!
Verification of the settings-and-registry layer of the Spot SDK python client
(`src/python/bosdyn-client/src/bosdyn/client/sdk.py`), as a shallow embedding
in Lean 4.

Modelling conventions:
* Python `dict`s become association lists (`List (String × α)`) with
  last-write-wins insertion (`dictInsert`) and first-match lookup (`dictFind`);
  since `dictInsert` replaces in place, `dictFind` agrees with Python lookup.
* Python exceptions become an inductive `PyExn`; a function that can raise
  returns `Except PyExn α`.  A method that mutates `self` and can raise
  returns `Except PyExn α × Sdk`, the second component being the state of the
  object after the call returns or after the exception escapes (Python leaves
  mutations made before a `raise` in place).
* File bytes are `List Nat`; the filesystem, the `glob` module and the `jwt`
  library are parameters (records of functions), since their behaviour is
  environment-dependent.  In particular `glob.glob` promises no ordering, so
  `CertFs.globMatches` is an arbitrary function from pattern to path list.
* `datetime` arithmetic in `log_token_time_remaining` is carried out on whole
  seconds: `now` is the current Unix time, the stored `exp` claim is a Unix
  time, and `timedelta.days` is floor division by 86400 (`Int.fdiv`).
-/

namespace SpotSdk

/-- Python association-list lookup: first binding for the key, if any. -/
def dictFind {α : Type} (d : List (String × α)) (k : String) : Option α :=
  match d with
  | [] => none
  | (k', v) :: rest => if k' = k then some v else dictFind rest k

/-- Python `d[k] = v`: replace the binding if the key is present, else append. -/
def dictInsert {α : Type} (d : List (String × α)) (k : String) (v : α) :
    List (String × α) :=
  match d with
  | [] => [(k, v)]
  | (k', v') :: rest =>
    if k' = k then (k, v) :: rest else (k', v') :: dictInsert rest k v

/-- The Python exceptions raised (or caught) by `sdk.py`, tagged with the
message they carry.  `ioError` covers the built-in `IOError`/`OSError` family
and `attributeError` the `AttributeError` raised by a missing class attribute
(its payload names the missing attribute). -/
inductive PyExn : Type
  | unsetAppTokenError : PyExn
  | unableToLoadAppTokenError (msg : String) : PyExn
  | ioError (msg : String) : PyExn
  | attributeError (missingAttr : String) : PyExn
deriving DecidableEq, Repr

/-- The Python class of an exception, forgetting the message.  Two raises are
distinguishable by an `except` clause exactly when their kinds differ. -/
inductive PyExnKind : Type
  | unsetAppToken
  | unableToLoadAppToken
  | io
  | attributeKind
deriving DecidableEq, Repr

/-- Map an exception value to its Python class. -/
def PyExn.kind : PyExn → PyExnKind
  | .unsetAppTokenError => .unsetAppToken
  | .unableToLoadAppTokenError _ => .unableToLoadAppToken
  | .ioError _ => .io
  | .attributeError _ => .attributeKind

/-- A service client class as `register_service_client` sees it: a callable
carrying optional class-level `default_service_name` / `service_type`
attributes (`none` models the attribute being absent, so that reading it
raises `AttributeError`).  `id` stands for the identity of the class object. -/
structure ServiceClientClass : Type where
  id : Nat
  default_service_name : Option String
  service_type : Option String
deriving DecidableEq, Repr

/-- Modelled from the spec: the `Robot` class (the spec's `DeviceHandle`) is
defined in `robot.py`, which is not part of the sources; per the spec it
stores a display name fixed at construction, the address, and a snapshot of
the Sdk's registry/credential/certificate/interceptor state copied by
`Robot.update_from` at creation time and never mutated afterwards. -/
structure Robot : Type where
  name : String
  address : String
  app_token : Option String
  cert : Option (List Nat)
  request_processors : List String
  response_processors : List String
  service_client_factories_by_type : List (String × ServiceClientClass)
  service_type_by_name : List (String × String)
deriving DecidableEq, Repr

/-- The state of an `Sdk` object (`Sdk.__init__`): no credential, no
certificate, empty processor lists, empty registries, empty robot cache. -/
structure Sdk : Type where
  app_token : Option String := none
  cert : Option (List Nat) := none
  request_processors : List String := []
  response_processors : List String := []
  service_client_factories_by_type : List (String × ServiceClientClass) := []
  service_type_by_name : List (String × String) := []
  robots : List (String × Robot) := []
deriving DecidableEq, Repr

/-- `Sdk()` — the freshly constructed state. -/
def Sdk.init : Sdk := {}

/-- Python `name or address` for an optional string argument: `None` and the
empty string are falsy, so both fall back to `address`. -/
def pyNameOr (name : Option String) (address : String) : String :=
  match name with
  | none => address
  | some s => if s = "" then address else s

/-- Modelled from the spec: `Robot(name=name or address)` followed by
`robot.address = address` and `robot.update_from(self)` — the handle gets the
display name fixed now and a snapshot of the Sdk's current settings
(`robot.py` is not among the sources; the spec specifies these snapshot
semantics). -/
def makeRobot (sdk : Sdk) (name : Option String) (address : String) : Robot :=
  { name := pyNameOr name address
    address := address
    app_token := sdk.app_token
    cert := sdk.cert
    request_processors := sdk.request_processors
    response_processors := sdk.response_processors
    service_client_factories_by_type := sdk.service_client_factories_by_type
    service_type_by_name := sdk.service_type_by_name }

/-- `Sdk.create_robot(address, name=None)`: raises `UnsetAppTokenError` when no
app token is loaded; returns the cached robot unchanged when the address is
already cached; otherwise builds a `Robot` named `name or address`, copies the
current settings into it, caches it by address and returns it. -/
def create_robot (sdk : Sdk) (address : String) (name : Option String) :
    Except PyExn Robot × Sdk :=
  if sdk.app_token = none then
    (.error .unsetAppTokenError, sdk)
  else
    match dictFind sdk.robots address with
    | some robot => (.ok robot, sdk)
    | none =>
      let robot := makeRobot sdk name address
      (.ok robot, { sdk with robots := dictInsert sdk.robots address robot })

/-- Python `argument or object.attribute`: when the argument is falsy (absent
or the empty string) the attribute is read, raising `AttributeError` when the
class does not define it. -/
def pyOrAttr (argument : Option String) (attrValue : Option String)
    (attrName : String) : Except PyExn String :=
  match argument with
  | some s =>
    if s = "" then
      match attrValue with
      | none => .error (.attributeError attrName)
      | some a => .ok a
    else .ok s
  | none =>
    match attrValue with
    | none => .error (.attributeError attrName)
    | some a => .ok a

/-- `Sdk.register_service_client(creation_func, service_type=None,
service_name=None)`: resolves the name then the type from the class attributes
when the arguments are omitted (raising `AttributeError` when a needed
attribute is missing — the failure the spec's taxonomy calls
`RegistrationError`), then stores name→type and type→class, overwriting
silently. -/
def register_service_client (sdk : Sdk) (creation_func : ServiceClientClass)
    (service_type : Option String := none) (service_name : Option String := none) :
    Except PyExn Unit × Sdk :=
  match pyOrAttr service_name creation_func.default_service_name
      "default_service_name" with
  | .error e => (.error e, sdk)
  | .ok sname =>
    match pyOrAttr service_type creation_func.service_type "service_type" with
    | .error e => (.error e, sdk)
    | .ok stype =>
      (.ok (),
        { sdk with
          service_type_by_name := dictInsert sdk.service_type_by_name sname stype
          service_client_factories_by_type :=
            dictInsert sdk.service_client_factories_by_type stype creation_func })

/-- The filesystem/environment as `load_robot_cert` sees it: `globMatches`
models `glob.glob` (which promises no particular order of its results),
`isFile` models `os.path.isfile`, `readBytes` the contents of a regular file,
and `defaultCert` the packaged `resources/robot.pem` byte stream. -/
structure CertFs : Type where
  globMatches : String → List String
  isFile : String → Bool
  readBytes : String → List Nat
  defaultCert : List Nat

/-- Concatenate the raw bytes of the given certificate files in list order. -/
def concatBytes (fs : CertFs) (paths : List String) : List Nat :=
  paths.foldl (fun acc p => acc ++ fs.readBytes p) []

/-- `Sdk.load_robot_cert(resource_path_glob=None)`: first clears `self.cert`;
with no glob it installs the packaged default certificate; with a glob it
filters the matches to regular files, raises `IOError` when none remain, and
otherwise concatenates the files' bytes in the order the glob returned them. -/
def load_robot_cert (fs : CertFs) (sdk : Sdk)
    (resource_path_glob : Option String) : Except PyExn Unit × Sdk :=
  let sdk := { sdk with cert := none }
  match resource_path_glob with
  | none => (.ok (), { sdk with cert := some fs.defaultCert })
  | some pat =>
    let cert_paths := (fs.globMatches pat).filter fs.isFile
    if cert_paths = [] then
      (.error (.ioError ("No files matched \x22" ++ pat ++ "\x22")), sdk)
    else
      (.ok (), { sdk with cert := some (concatBytes fs cert_paths) })

/-- Lexicographic comparison of character lists by codepoint, the order in
which Python sorts path strings. -/
def charListLexLe : List Char → List Char → Bool
  | [], _ => true
  | _ :: _, [] => false
  | a :: as, b :: bs =>
    if a.toNat < b.toNat then true
    else if b.toNat < a.toNat then false
    else charListLexLe as bs

/-- Lexicographic order on path strings. -/
def lexLe (a b : String) : Bool :=
  charListLexLe a.data b.data

/-- What the spec says `loadFromGlob` produces: the matched regular files
taken in lexicographic path order, concatenated.  Declared only to be compared
with what `load_robot_cert` actually computes. -/
def specLexicographicBundle (fs : CertFs) (pat : String) : List Nat :=
  concatBytes fs (List.insertionSort (fun a b => lexLe a b = true)
    ((fs.globMatches pat).filter fs.isFile))

/-- The `jwt` library's failure modes surfaced to `decode_token`:
`jwt.exceptions.DecodeError` (undecodable token structure/payload) versus any
other exception, each carrying its rendered message. -/
inductive JwtExn : Type
  | decodeError (msg : String)
  | otherError (msg : String)
deriving DecidableEq, Repr

/-- The payload claims of a token.  Only numeric claims matter to this layer
(the code reads just the numeric `exp`), so claims are an association list of
numeric values. -/
abbrev TokenValues : Type := List (String × Int)

/-- A model of `jwt.decode(token, verify=False)`: environment-supplied, since
the jwt library is an external collaborator. -/
abbrev JwtDecode : Type := String → Except JwtExn TokenValues

/-- `decode_token(token)`: decodes without verification, wrapping a
`jwt.exceptions.DecodeError` as `UnableToLoadAppTokenError` with an
"Incorrectly formatted token" message echoing the failure, and any other
decode exception as `UnableToLoadAppTokenError` with a "Problem decoding
token" message. -/
def decode_token (jwtDecode : JwtDecode) (token : String) :
    Except PyExn TokenValues :=
  match jwtDecode token with
  | .ok values => .ok values
  | .error (.decodeError e) =>
    .error (.unableToLoadAppTokenError
      ("Incorrectly formatted token " ++ token ++ " --- " ++ e))
  | .error (.otherError e) =>
    .error (.unableToLoadAppTokenError
      ("Problem decoding token " ++ token ++ " --- " ++ e))

/-- One record written to the logger by `log_token_time_remaining`, carrying
the data interpolated into the message: the warning carries the integer day
count (`timedelta.days`) and the expiry timestamp that is formatted into the
message, the informational record carries the expiry timestamp. -/
inductive LogRecord : Type
  | tokenExpired
  | tokenExpiresInDays (days : Int) (expTimestamp : Int)
  | tokenExpiresOn (expTimestamp : Int)
deriving DecidableEq, Repr

/-- Log severities used by the classification. -/
inductive LogSeverity : Type
  | errorLevel
  | warningLevel
  | infoLevel
deriving DecidableEq, Repr

/-- The severity each record is logged at. -/
def LogRecord.severity : LogRecord → LogSeverity
  | .tokenExpired => .errorLevel
  | .tokenExpiresInDays _ _ => .warningLevel
  | .tokenExpiresOn _ => .infoLevel

/-- The number of seconds in 30 days, the warning threshold
(`datetime.timedelta(days=30)`). -/
def thirtyDays : Int := 30 * 86400

/-- The classification half of `log_token_time_remaining` (lines 251-268):
raises `UnableToLoadAppTokenError` when the `exp` claim is absent; otherwise
computes the remaining time `exp - now` and logs at error severity when it is
negative, at warning severity (with `timedelta.days`, a floor division by
86400, and the expiry date) when it is at most 30 days, and at informational
severity otherwise. -/
def classify_token_expiration (token_values : TokenValues) (now : Int) :
    Except PyExn LogRecord :=
  match dictFind token_values "exp" with
  | none => .error (.unableToLoadAppTokenError "Unknown token expiration")
  | some exp =>
    let time_to_expiration := exp - now
    if time_to_expiration < 0 then
      .ok .tokenExpired
    else if time_to_expiration ≤ thirtyDays then
      .ok (.tokenExpiresInDays (Int.fdiv time_to_expiration 86400) exp)
    else
      .ok (.tokenExpiresOn exp)

/-- `log_token_time_remaining(token)`: decode the token, then classify the
remaining validity. -/
def log_token_time_remaining (jwtDecode : JwtDecode) (now : Int)
    (token : String) : Except PyExn LogRecord :=
  match decode_token jwtDecode token with
  | .error e => .error e
  | .ok token_values => classify_token_expiration token_values now

/-- The filesystem as `load_app_token` sees it: `expanduser` models
`os.path.expanduser` and `readFile` models opening, reading and UTF-8
decoding the file — returning either the text or the message of the
`IOError` the attempt raised. -/
structure TokenFs : Type where
  expanduser : String → String
  readFile : String → Except String String

/-- `Sdk.load_app_token(resource_path)`: raises `UnsetAppTokenError` on a
falsy path (absent or empty); opens and reads the file, wrapping any
`IOError` as `UnableToLoadAppTokenError`; strips the token, logs its time to
expiry (whose `UnableToLoadAppTokenError` failures propagate, being neither
`IOError` nor `TypeError`); and only then stores the token on the Sdk. -/
def load_app_token (fs : TokenFs) (jwtDecode : JwtDecode) (now : Int)
    (sdk : Sdk) (resource_path : Option String) : Except PyExn Unit × Sdk :=
  match resource_path with
  | none => (.error .unsetAppTokenError, sdk)
  | some p =>
    if p = "" then
      (.error .unsetAppTokenError, sdk)
    else
      match fs.readFile (fs.expanduser p) with
      | .error _ =>
        (.error (.unableToLoadAppTokenError
          ("Unable to retrieve app token from \x22" ++ p ++ "\x22.")), sdk)
      | .ok text =>
        let token := text.trim
        match log_token_time_remaining jwtDecode now token with
        | .error e => (.error e, sdk)
        | .ok _ => (.ok (), { sdk with app_token := some token })

/-- Register every class of a list in order, stopping at the first exception
(the `for client in all_service_clients` loop of `create_standard_sdk`). -/
def registerAll (sdk : Sdk) (clients : List ServiceClientClass) :
    Except PyExn Unit × Sdk :=
  match clients with
  | [] => (.ok (), sdk)
  | c :: rest =>
    match register_service_client sdk c with
    | (.error e, sdk') => (.error e, sdk')
    | (.ok _, sdk') => registerAll sdk' rest

/-- `create_standard_sdk(client_name_prefix, service_clients=None,
cert_resource_glob=None)`: builds a fresh Sdk, loads the certificate, appends
the request-header processor, computes `all_service_clients` — aliasing the
module-level `_DEFAULT_SERVICE_CLIENTS` list and, when `service_clients` is
truthy, extending that shared list **in place** with `+=` — and registers
every client on the (possibly extended) list.  The module-level list is
threaded as explicit state: the second component of the result is its value
after the call. -/
def create_standard_sdk (certFs : CertFs)
    (defaultServiceClients : List ServiceClientClass)
    (service_clients : Option (List ServiceClientClass))
    (cert_resource_glob : Option String) :
    (Except PyExn Sdk) × List ServiceClientClass :=
  match load_robot_cert certFs Sdk.init cert_resource_glob with
  | (.error e, _) => (.error e, defaultServiceClients)
  | (.ok _, sdk) =>
    let sdk := { sdk with
      request_processors := sdk.request_processors ++ ["AddRequestHeader"] }
    let all_service_clients :=
      match service_clients with
      | none => defaultServiceClients
      | some cs => if cs = [] then defaultServiceClients
                   else defaultServiceClients ++ cs
    match registerAll sdk all_service_clients with
    | (.error e, _) => (.error e, all_service_clients)
    | (.ok _, sdk) => (.ok sdk, all_service_clients)

/-! Concrete environments used to evaluate the theorems on closed inputs. -/

/-- A filesystem on which the glob expansion returns two regular certificate
files in reverse lexicographic order — an order `glob.glob` is free to
produce, since it promises none. -/
def certFsUnsorted : CertFs where
  globMatches := fun _ => ["cert2.pem", "cert1.pem"]
  isFile := fun _ => true
  readBytes := fun p => if p = "cert1.pem" then [1] else [2]
  defaultCert := [77]

/-- A filesystem on which no path is a regular file, so every glob filters to
the empty list. -/
def certFsEmpty : CertFs where
  globMatches := fun _ => []
  isFile := fun _ => false
  readBytes := fun _ => []
  defaultCert := [77]

/-- A token filesystem on which every read fails with an I/O error. -/
def tokenFsUnreadable : TokenFs where
  expanduser := fun s => s
  readFile := fun _ => .error "No such file or directory"

/-- A jwt decoder that rejects every token with a `DecodeError`, as the jwt
library does on a string that is not a well-formed three-segment token. -/
def jwtDecodeBad : JwtDecode :=
  fun _ => .error (.decodeError "Not enough segments")

/-- A service client class defining neither `default_service_name` nor
`service_type`. -/
def clientClassNoDefaults : ServiceClientClass where
  id := 0
  default_service_name := none
  service_type := none

/-- A service client class with both attributes defined. -/
def clientClassAuth : ServiceClientClass where
  id := 1
  default_service_name := some "auth"
  service_type := some "bosdyn.api.AuthService"

/-! Helper lemmas. -/

/-- Looking up the key just inserted returns the inserted value. -/
theorem dictFind_dictInsert_self {α : Type} (d : List (String × α)) (k : String)
    (v : α) : dictFind (dictInsert d k v) k = some v := by
  induction d with
  | nil => simp [dictInsert, dictFind]
  | cons hd tl ih =>
    obtain ⟨k', v'⟩ := hd
    by_cases h : k' = k
    · simp [dictInsert, dictFind, h]
    · simp [dictInsert, dictFind, h, ih]

/-! Claim theorems. -/

/-- Claim C1: with a credential loaded, once `create_robot(a, n1)` has
returned a handle for a fresh address `a`, a repeat `create_robot(a, n2)`
returns that identical handle with the Sdk state unchanged; the display name
is the one fixed at first creation — `n1` (for any actual, non-empty name), or
`a` when `n1` was omitted — and `n2` is ignored. -/
theorem create_robot_repeat_returns_cached_handle (sdk : Sdk) (a : String)
    (n1 n2 : Option String) (t : String)
    (htok : sdk.app_token = some t) (hfresh : dictFind sdk.robots a = none) :
    ∃ (r : Robot) (sdk₁ : Sdk),
      create_robot sdk a n1 = (.ok r, sdk₁) ∧
      create_robot sdk₁ a n2 = (.ok r, sdk₁) ∧
      (n1 = none → r.name = a) ∧
      (∀ s, n1 = some s → s ≠ "" → r.name = s) := by
  refine ⟨makeRobot sdk n1 a,
    { sdk with robots := dictInsert sdk.robots a (makeRobot sdk n1 a) },
    ?_, ?_, ?_, ?_⟩
  · simp [create_robot, htok, hfresh]
  · simp [create_robot, htok, dictFind_dictInsert_self]
  · intro h
    subst h
    rfl
  · intro s hs hne
    subst hs
    simp [makeRobot, pyNameOr, hne]

/-- Witness for C1 at a concrete Sdk, address and names. -/
theorem create_robot_repeat_witness :
    ∃ (r : Robot) (sdk₁ : Sdk),
      create_robot { app_token := some "tok" } "192.168.1.10" (some "Robot-A") =
        (.ok r, sdk₁) ∧
      create_robot sdk₁ "192.168.1.10" (some "Robot-B") = (.ok r, sdk₁) ∧
      (some "Robot-A" = none → r.name = "192.168.1.10") ∧
      (∀ s, some "Robot-A" = some s → s ≠ "" → r.name = s) :=
  create_robot_repeat_returns_cached_handle { app_token := some "tok" }
    "192.168.1.10" (some "Robot-A") (some "Robot-B") "tok" rfl rfl

/-- Claim C8: with no credential loaded, `create_robot` raises
`UnsetAppTokenError` and leaves the Sdk — in particular its robot cache —
unchanged. -/
theorem create_robot_without_token_fails (sdk : Sdk) (a : String)
    (n : Option String) (h : sdk.app_token = none) :
    create_robot sdk a n = (.error .unsetAppTokenError, sdk) ∧
    (create_robot sdk a n).2.robots = sdk.robots := by
  constructor
  · simp [create_robot, h]
  · simp [create_robot, h]

/-- Witness for C8 on a fresh Sdk. -/
theorem create_robot_without_token_witness :
    create_robot Sdk.init "10.0.0.1" none = (.error .unsetAppTokenError, Sdk.init) ∧
    (create_robot Sdk.init "10.0.0.1" none).2.robots = Sdk.init.robots :=
  create_robot_without_token_fails Sdk.init "10.0.0.1" none rfl

/-- Claim C3: when the claims carry a numeric `exp`, the classification never
raises and logs at error severity exactly when `exp - now < 0`, at warning
severity — with the integer day count `(exp - now) // 86400` and the expiry
timestamp that is formatted into the message — exactly when
`0 ≤ exp - now ≤ 30` days, and at informational severity exactly when
`exp - now > 30` days. -/
theorem classify_token_expiration_severity (token_values : TokenValues)
    (now exp : Int) (hexp : dictFind token_values "exp" = some exp) :
    ∃ rec : LogRecord,
      classify_token_expiration token_values now = .ok rec ∧
      (rec.severity = .errorLevel ↔ exp - now < 0) ∧
      (rec.severity = .warningLevel ↔ 0 ≤ exp - now ∧ exp - now ≤ thirtyDays) ∧
      (rec.severity = .infoLevel ↔ thirtyDays < exp - now) ∧
      (rec.severity = .warningLevel →
        rec = .tokenExpiresInDays (Int.fdiv (exp - now) 86400) exp) := by
  unfold classify_token_expiration
  rw [hexp]
  by_cases h1 : exp - now < 0
  · refine ⟨.tokenExpired, ?_, ?_, ?_, ?_, ?_⟩
    · simp [h1]
    · simp [LogRecord.severity, h1]
    · simp only [LogRecord.severity, thirtyDays]
      simp
      omega
    · simp only [LogRecord.severity, thirtyDays]
      simp
      omega
    · simp [LogRecord.severity]
  · by_cases h2 : exp - now ≤ thirtyDays
    · refine ⟨.tokenExpiresInDays (Int.fdiv (exp - now) 86400) exp, ?_, ?_, ?_, ?_, ?_⟩
      · simp [h1, h2]
      · simp only [LogRecord.severity]
        simp
        omega
      · simp only [LogRecord.severity, thirtyDays] at h2 ⊢
        simp
        omega
      · simp only [LogRecord.severity, thirtyDays] at h2 ⊢
        simp
        omega
      · simp
    · refine ⟨.tokenExpiresOn exp, ?_, ?_, ?_, ?_, ?_⟩
      · simp [h1, h2]
      · simp only [LogRecord.severity]
        simp
        omega
      · simp only [LogRecord.severity, thirtyDays] at h2 ⊢
        simp
        omega
      · simp only [LogRecord.severity, thirtyDays] at h2 ⊢
        simp
        omega
      · simp [LogRecord.severity]

/-- Witness for C3: a credential expiring in 5 days classifies at warning
severity with a day count of 5. -/
theorem classify_token_expiration_witness :
    ∃ rec : LogRecord,
      classify_token_expiration [("exp", 1000000)] 568000 = .ok rec ∧
      (rec.severity = .errorLevel ↔ (1000000 : Int) - 568000 < 0) ∧
      (rec.severity = .warningLevel ↔
        0 ≤ (1000000 : Int) - 568000 ∧ (1000000 : Int) - 568000 ≤ thirtyDays) ∧
      (rec.severity = .infoLevel ↔ thirtyDays < (1000000 : Int) - 568000) ∧
      (rec.severity = .warningLevel →
        rec = .tokenExpiresInDays (Int.fdiv ((1000000 : Int) - 568000) 86400) 1000000) :=
  classify_token_expiration_severity [("exp", 1000000)] 568000 1000000 rfl

/-- Claim C4: registering a service client class that defines neither
`default_service_name` nor `service_type`, with both arguments omitted, fails
(with the `AttributeError` that the spec's error taxonomy calls
`RegistrationError`) and leaves the registries unchanged. -/
theorem register_service_client_no_defaults_fails (sdk : Sdk)
    (f : ServiceClientClass) (hname : f.default_service_name = none)
    (_htype : f.service_type = none) :
    register_service_client sdk f none none =
      (.error (.attributeError "default_service_name"), sdk) := by
  simp [register_service_client, pyOrAttr, hname]

/-- Witness for C4 on a class with no default attributes. -/
theorem register_service_client_no_defaults_witness :
    register_service_client Sdk.init clientClassNoDefaults none none =
      (.error (.attributeError "default_service_name"), Sdk.init) :=
  register_service_client_no_defaults_fails Sdk.init clientClassNoDefaults rfl rfl

/-- Claim C5: `load_app_token` raises `UnsetAppTokenError` exactly on a falsy
(absent or empty) path, and raises `UnableToLoadAppTokenError` whenever
opening/reading the file fails with an I/O error — never the other way
around, the Sdk being left unchanged in every failing case. -/
theorem load_app_token_error_classification (fs : TokenFs)
    (jwtDecode : JwtDecode) (now : Int) (sdk : Sdk) :
    (load_app_token fs jwtDecode now sdk none =
      (.error .unsetAppTokenError, sdk)) ∧
    (load_app_token fs jwtDecode now sdk (some "") =
      (.error .unsetAppTokenError, sdk)) ∧
    (∀ p e, p ≠ "" → fs.readFile (fs.expanduser p) = .error e →
      load_app_token fs jwtDecode now sdk (some p) =
        (.error (.unableToLoadAppTokenError
          ("Unable to retrieve app token from \x22" ++ p ++ "\x22.")), sdk)) := by
  refine ⟨rfl, by simp [load_app_token], ?_⟩
  intro p e hp hread
  simp [load_app_token, hp, hread]

/-- Witness for C5: the empty path raises `UnsetAppTokenError` and a
nonexistent path raises `UnableToLoadAppTokenError`. -/
theorem load_app_token_error_witness :
    (load_app_token tokenFsUnreadable jwtDecodeBad 0 Sdk.init (some "") =
      (.error .unsetAppTokenError, Sdk.init)) ∧
    (load_app_token tokenFsUnreadable jwtDecodeBad 0 Sdk.init
        (some "/nonexistent/path") =
      (.error (.unableToLoadAppTokenError
        ("Unable to retrieve app token from \x22/nonexistent/path\x22.")),
       Sdk.init)) :=
  ⟨(load_app_token_error_classification tokenFsUnreadable jwtDecodeBad 0
      Sdk.init).2.1,
   (load_app_token_error_classification tokenFsUnreadable jwtDecodeBad 0
      Sdk.init).2.2 "/nonexistent/path" "No such file or directory"
      (by decide) rfl⟩

/-- Counterexample to C6: the error raised for an undecodable credential is of
the very same Python class (`UnableToLoadAppTokenError`) as the error raised
for an unreadable credential file — the two failure kinds are not distinct, a
caller's `except` clause cannot tell them apart. -/
theorem malformed_and_unreadable_share_exception_class :
    decode_token jwtDecodeBad "garbage" =
      .error (.unableToLoadAppTokenError
        "Incorrectly formatted token garbage --- Not enough segments") ∧
    (load_app_token tokenFsUnreadable jwtDecodeBad 0 Sdk.init
        (some "/nonexistent/path")).1 =
      .error (.unableToLoadAppTokenError
        "Unable to retrieve app token from \x22/nonexistent/path\x22.") ∧
    PyExn.kind (.unableToLoadAppTokenError
        "Incorrectly formatted token garbage --- Not enough segments") =
      PyExn.kind (.unableToLoadAppTokenError
        "Unable to retrieve app token from \x22/nonexistent/path\x22.") :=
  ⟨rfl, rfl, rfl⟩

/-- Claim C6 as amended: an undecodable payload makes `decode_token` raise
`UnableToLoadAppTokenError` with a message echoing the offending decode
failure, and claims lacking `exp` make the expiry check raise
`UnableToLoadAppTokenError`; this class is distinct from `UnsetAppTokenError`
(though it is the same class used for unreadable credential files). -/
theorem decode_failures_raise_unable_to_load (jwtDecode : JwtDecode)
    (token e : String) (tv : TokenValues) (now : Int)
    (hdec : jwtDecode token = .error (.decodeError e))
    (hexp : dictFind tv "exp" = none) :
    decode_token jwtDecode token =
      .error (.unableToLoadAppTokenError
        ("Incorrectly formatted token " ++ token ++ " --- " ++ e)) ∧
    classify_token_expiration tv now =
      .error (.unableToLoadAppTokenError "Unknown token expiration") ∧
    PyExn.kind (.unableToLoadAppTokenError
        ("Incorrectly formatted token " ++ token ++ " --- " ++ e)) ≠
      PyExn.kind .unsetAppTokenError := by
  refine ⟨?_, ?_, by simp [PyExn.kind]⟩
  · simp [decode_token, hdec]
  · simp [classify_token_expiration, hexp]

/-- Witness for the amended C6 on a concrete undecodable token and a concrete
claims map with no `exp`. -/
theorem decode_failures_witness :
    decode_token jwtDecodeBad "garbage" =
      .error (.unableToLoadAppTokenError
        ("Incorrectly formatted token " ++ "garbage" ++ " --- " ++
          "Not enough segments")) ∧
    classify_token_expiration [("iat", 12)] 0 =
      .error (.unableToLoadAppTokenError "Unknown token expiration") ∧
    PyExn.kind (.unableToLoadAppTokenError
        ("Incorrectly formatted token " ++ "garbage" ++ " --- " ++
          "Not enough segments")) ≠
      PyExn.kind .unsetAppTokenError :=
  decode_failures_raise_unable_to_load jwtDecodeBad "garbage"
    "Not enough segments" [("iat", 12)] 0 rfl rfl

/-- Claim C7: with a glob supplied, `load_robot_cert` raises (`IOError`, the
spec's `CertificateNotFoundError`) exactly when the glob expansion filtered to
regular files is empty, and in that case the certificate is left cleared —
there is no silent fallback to the packaged default bundle. -/
theorem load_robot_cert_error_iff_no_match (fs : CertFs) (sdk : Sdk)
    (pat : String) :
    ((fs.globMatches pat).filter fs.isFile = [] →
      load_robot_cert fs sdk (some pat) =
        (.error (.ioError ("No files matched \x22" ++ pat ++ "\x22")),
         { sdk with cert := none })) ∧
    ((fs.globMatches pat).filter fs.isFile ≠ [] →
      ∃ bundle, load_robot_cert fs sdk (some pat) =
        (.ok (), { sdk with cert := some bundle })) := by
  constructor
  · intro h
    simp [load_robot_cert, h]
  · intro h
    exact ⟨concatBytes fs ((fs.globMatches pat).filter fs.isFile),
      by simp [load_robot_cert, h]⟩

/-- Witness for C7: on a filesystem with no matching regular files the load
raises and clears the certificate; on one with matches it succeeds. -/
theorem load_robot_cert_error_iff_witness :
    load_robot_cert certFsEmpty Sdk.init (some "*.pem") =
      (.error (.ioError ("No files matched \x22" ++ "*.pem" ++ "\x22")),
       { Sdk.init with cert := none }) ∧
    ∃ bundle, load_robot_cert certFsUnsorted Sdk.init (some "*.pem") =
      (.ok (), { Sdk.init with cert := some bundle }) :=
  ⟨(load_robot_cert_error_iff_no_match certFsEmpty Sdk.init "*.pem").1 rfl,
   (load_robot_cert_error_iff_no_match certFsUnsorted Sdk.init "*.pem").2
     (by decide)⟩

/-- Claim C10: `load_robot_cert` clears the stored certificate before loading,
so when the glob matches no regular file the call raises `IOError` and leaves
the certificate `None` — not its previous value; the operation is not atomic
on error. -/
theorem load_robot_cert_clears_cert_on_error (fs : CertFs) (sdk : Sdk)
    (pat : String) (prior : List Nat) (_hprior : sdk.cert = some prior)
    (hempty : (fs.globMatches pat).filter fs.isFile = []) :
    (load_robot_cert fs sdk (some pat)).2.cert = none ∧
    (load_robot_cert fs sdk (some pat)).1 =
      .error (.ioError ("No files matched \x22" ++ pat ++ "\x22")) ∧
    (load_robot_cert fs sdk (some pat)).2.cert ≠ some prior := by
  refine ⟨?_, ?_, ?_⟩ <;> simp [load_robot_cert, hempty]

/-- Witness for C10 on an Sdk holding a prior certificate. -/
theorem load_robot_cert_clears_cert_witness :
    (load_robot_cert certFsEmpty { cert := some [9, 9] } (some "*.pem")).2.cert =
      none ∧
    (load_robot_cert certFsEmpty { cert := some [9, 9] } (some "*.pem")).1 =
      .error (.ioError ("No files matched \x22" ++ "*.pem" ++ "\x22")) ∧
    (load_robot_cert certFsEmpty { cert := some [9, 9] } (some "*.pem")).2.cert ≠
      some [9, 9] :=
  load_robot_cert_clears_cert_on_error certFsEmpty { cert := some [9, 9] }
    "*.pem" [9, 9] rfl rfl

/-- Counterexample to C2: `glob.glob` promises no ordering, and
`load_robot_cert` concatenates in whatever order the glob returns.  On a
filesystem where the glob yields exactly `cert2.pem` then `cert1.pem` (both
regular files, with `cert1.pem` sorting first), the bundle is
`contents(cert2.pem) ++ contents(cert1.pem)`, not the lexicographic
concatenation the claim asserts. -/
theorem load_robot_cert_not_lexicographic :
    certFsUnsorted.globMatches "*.pem" = ["cert2.pem", "cert1.pem"] ∧
    (lexLe "cert1.pem" "cert2.pem" = true ∧ "cert1.pem" ≠ "cert2.pem") ∧
    (load_robot_cert certFsUnsorted Sdk.init (some "*.pem")).2.cert =
      some (certFsUnsorted.readBytes "cert2.pem" ++
            certFsUnsorted.readBytes "cert1.pem") ∧
    (load_robot_cert certFsUnsorted Sdk.init (some "*.pem")).2.cert ≠
      some (certFsUnsorted.readBytes "cert1.pem" ++
            certFsUnsorted.readBytes "cert2.pem") ∧
    (load_robot_cert certFsUnsorted Sdk.init (some "*.pem")).2.cert ≠
      some (specLexicographicBundle certFsUnsorted "*.pem") := by
  refine ⟨rfl, by decide, rfl, by decide, by decide⟩

/-- Claim C2 as amended: for a glob whose filtered set of matched regular
files is non-empty, `load_robot_cert` succeeds with the concatenation of the
files' raw bytes in the order the glob expansion returned them — an order the
glob does not guarantee to be lexicographic; whenever that order happens to be
lexicographically sorted, the bundle coincides with the spec's
lexicographic-order concatenation. -/
theorem load_robot_cert_concatenates_in_glob_order (fs : CertFs) (sdk : Sdk)
    (pat : String) (hne : (fs.globMatches pat).filter fs.isFile ≠ []) :
    load_robot_cert fs sdk (some pat) =
      (.ok (), { sdk with
        cert := some (concatBytes fs ((fs.globMatches pat).filter fs.isFile)) }) ∧
    (List.Sorted (fun a b => lexLe a b = true)
        ((fs.globMatches pat).filter fs.isFile) →
      concatBytes fs ((fs.globMatches pat).filter fs.isFile) =
        specLexicographicBundle fs pat) := by
  constructor
  · simp [load_robot_cert, hne]
  · intro hsorted
    unfold specLexicographicBundle
    rw [List.Sorted.insertionSort_eq hsorted]

/-- Witness for the amended C2: on the two-certificate filesystem the bundle
is the glob-order concatenation. -/
theorem load_robot_cert_glob_order_witness :
    load_robot_cert certFsUnsorted Sdk.init (some "*.pem") =
      (.ok (), { Sdk.init with
        cert := some (concatBytes certFsUnsorted
          ((certFsUnsorted.globMatches "*.pem").filter certFsUnsorted.isFile)) }) ∧
    (List.Sorted (fun a b => lexLe a b = true)
        ((certFsUnsorted.globMatches "*.pem").filter certFsUnsorted.isFile) →
      concatBytes certFsUnsorted
          ((certFsUnsorted.globMatches "*.pem").filter certFsUnsorted.isFile) =
        specLexicographicBundle certFsUnsorted "*.pem") :=
  load_robot_cert_concatenates_in_glob_order certFsUnsorted Sdk.init "*.pem"
    (by decide)

/-- Claim C9: `create_standard_sdk` with a non-empty extra `service_clients`
list extends the module-level default client list in place and never restores
it, so the list afterwards is the old defaults plus the extras — and a
subsequent call passing no extras iterates that mutated list, producing the
very same Sdk (extras included) as the earlier call did. -/
theorem create_standard_sdk_mutates_default_list (fs : CertFs)
    (defaults extras : List ServiceClientClass) (cg : Option String)
    (hextras : extras ≠ [])
    (hcert : (load_robot_cert fs Sdk.init cg).1 = .ok ()) :
    (create_standard_sdk fs defaults (some extras) cg).2 = defaults ++ extras ∧
    create_standard_sdk fs (defaults ++ extras) none cg =
      create_standard_sdk fs defaults (some extras) cg := by
  have h0 : ∃ sdk0, load_robot_cert fs Sdk.init cg = (.ok (), sdk0) := by
    rcases h : load_robot_cert fs Sdk.init cg with ⟨res, s⟩
    rw [h] at hcert
    cases res with
    | ok u => exact ⟨s, by cases u; rfl⟩
    | error e => simp at hcert
  obtain ⟨sdk0, h0⟩ := h0
  constructor
  · simp only [create_standard_sdk, h0, hextras, if_neg hextras]
    rcases hra : registerAll
        { sdk0 with
          request_processors := sdk0.request_processors ++ ["AddRequestHeader"] }
        (defaults ++ extras) with ⟨r, s2⟩
    cases r <;> simp [hra]
  · simp only [create_standard_sdk, h0, if_neg hextras]

/-- Witness for C9: registering one extra client appends it to the (here
empty) default list, and the follow-up call with no extras returns the same
result. -/
theorem create_standard_sdk_mutation_witness :
    (create_standard_sdk certFsUnsorted [] (some [clientClassAuth]) none).2 =
      [] ++ [clientClassAuth] ∧
    create_standard_sdk certFsUnsorted ([] ++ [clientClassAuth]) none none =
      create_standard_sdk certFsUnsorted [] (some [clientClassAuth]) none :=
  create_standard_sdk_mutates_default_list certFsUnsorted [] [clientClassAuth]
    none (by decide) rfl

end SpotSdk
